import Mathlib

/-!
Verification of the voice-processor pipeline core of the
LiquidMetal-AI/lm-raindrop-demos repository
(src/voice-agent-demo/src/voice-processor: model.ts and controller.ts).

The TypeScript source is shallowly embedded: JavaScript strings become
Lean strings, JavaScript string primitives (trim, toLowerCase, split) are
modelled as structurally recursive functions over the character data,
optional / possibly-undefined fields become Option, promise resolution or
rejection of the injected external dependencies becomes Except with the
thrown error message as the error value, and every Date.now() read is
drawn from an injected clock sequence.  The pipeline additionally exposes
its local pipelineStages array and a record of which external adapters
were invoked, so that the audit-trail and no-further-calls properties can
be stated.
-/

set_option autoImplicit false

namespace VoiceProcessor

/-! ### Models of the JavaScript string primitives used by the source -/

/-- JavaScript s.split(sep) over the character list: split at every
occurrence of the separator, keeping empty segments; on the empty string
the result is one empty segment, as in JavaScript. -/
def jsSplitAux (sep : Char) : List Char → List Char → List (List Char)
  | [], acc => [acc.reverse]
  | c :: cs, acc =>
    if c = sep then acc.reverse :: jsSplitAux sep cs []
    else jsSplitAux sep cs (c :: acc)

/-- JavaScript s.split(sep) for a one-character separator. -/
def jsSplit (sep : Char) (s : String) : List String :=
  (jsSplitAux sep s.data []).map String.mk

/-- JavaScript s.trim(): drop whitespace from both ends. -/
def jsTrim (s : String) : String :=
  ⟨((s.data.dropWhile Char.isWhitespace).reverse.dropWhile Char.isWhitespace).reverse⟩

/-- JavaScript String.prototype.toLowerCase on one ASCII character. -/
def jsToLowerChar (c : Char) : Char :=
  if 'A' ≤ c && c ≤ 'Z' then Char.ofNat (c.toNat + 32) else c

/-- JavaScript s.toLowerCase(). -/
def jsToLower (s : String) : String :=
  ⟨s.data.map jsToLowerChar⟩

/-- JavaScript (o || d) for a possibly-undefined string o: the default d
is taken when o is undefined or the empty string (both falsy). -/
def jsStrOr (o : Option String) (d : String) : String :=
  match o with
  | none => d
  | some s => if s = "" then d else s

/-! ### Data model (src/types/shared.ts) -/

/-- The declared metadata of the uploaded File object; the pipeline core
reads only size, type, name and lastModified. -/
structure AudioFile where
  size : Nat
  type : String
  name : String
  lastModified : Nat
  deriving DecidableEq, Repr

/-- PipelineStage = validation | whisper | llama | hume | response-assembly. -/
inductive PipelineStage where
  | validation
  | whisper
  | llama
  | hume
  | responseAssembly
  deriving DecidableEq, Repr

/-- The structured details payload of a ValidationResult. -/
structure ValidationDetails where
  fileSize : Nat
  fileType : String
  maxSizeExceeded : Bool
  unsupportedFormat : Bool
  deriving DecidableEq, Repr

/-- ValidationResult of model.ts. -/
structure ValidationResult where
  valid : Bool
  error : Option String := none
  details : Option ValidationDetails := none
  deriving DecidableEq, Repr

/-- AudioMetadata of model.ts. -/
structure AudioMetadata where
  size : Nat
  type : String
  name : String
  lastModified : Nat
  deriving DecidableEq, Repr

/-! ### model.ts -/

/-- MAX_FILE_SIZE = 25 * 1024 * 1024 bytes. -/
def MAX_FILE_SIZE : Nat := 25 * 1024 * 1024

/-- SUPPORTED_MIME_TYPES of model.ts. -/
def SUPPORTED_MIME_TYPES : List String :=
  ["audio/wav", "audio/mp3", "audio/mpeg",
   "audio/mp4", "audio/webm", "audio/m4a", "audio/mpga"]

/-- SUPPORTED_EXTENSIONS of model.ts. -/
def SUPPORTED_EXTENSIONS : List String :=
  ["wav", "mp3", "m4a", "webm", "mp4", "mpeg", "mpga"]

/-- validateAudioFile of model.ts.  The size check runs first and returns
immediately on failure; otherwise the MIME type and the lowercased
filename extension (the last segment of name split at the dots; in
JavaScript that value is falsy when it is the empty string) are checked.
Total pure function: it never throws. -/
def validateAudioFile (file : AudioFile) : ValidationResult :=
  if file.size > MAX_FILE_SIZE then
    { valid := false
      error := some ("File size exceeds maximum allowed size of "
        ++ toString (MAX_FILE_SIZE / 1024 / 1024) ++ "MB")
      details := some { fileSize := file.size, fileType := file.type
                        maxSizeExceeded := true, unsupportedFormat := false } }
  else
    let isValidMimeType := SUPPORTED_MIME_TYPES.contains file.type
    let fileExtension := (jsSplit '.' (jsToLower file.name)).getLastD ""
    let hasValidExtension :=
      fileExtension ≠ "" && SUPPORTED_EXTENSIONS.contains fileExtension
    if !isValidMimeType && !hasValidExtension then
      { valid := false
        error := some ("Unsupported file format. Supported formats: "
          ++ String.intercalate ", " SUPPORTED_EXTENSIONS)
        details := some { fileSize := file.size, fileType := file.type
                          maxSizeExceeded := false, unsupportedFormat := true } }
    else
      { valid := true
        details := some { fileSize := file.size, fileType := file.type
                          maxSizeExceeded := false, unsupportedFormat := false } }

/-- extractAudioMetadata of model.ts. -/
def extractAudioMetadata (file : AudioFile) : AudioMetadata :=
  { size := file.size, type := file.type
    name := file.name, lastModified := file.lastModified }

/-- validatePipelineStages of model.ts: both the transcript and the LLM
output must be non-empty and not whitespace-only. -/
def validatePipelineStages (transcript llmOutput : String) : Bool :=
  if transcript = "" || (jsTrim transcript).length = 0 then false
  else if llmOutput = "" || (jsTrim llmOutput).length = 0 then false
  else true

/-! ### controller.ts: data types -/

/-- PipelineError of shared.ts: a stage-tagged failure with message and
optional cause detail. -/
structure PipelineError where
  message : String
  stage : PipelineStage
  details : Option String := none
  deriving DecidableEq, Repr

/-- PipelineStageResult: one entry of the pipelineStages audit log. -/
structure PipelineStageResult where
  stage : PipelineStage
  success : Bool
  durationMs : Nat
  error : Option String := none
  deriving DecidableEq, Repr

/-- AudioProcessingMetadata of shared.ts. -/
structure AudioProcessingMetadata where
  originalDuration : Option Nat
  transcriptLength : Nat
  processingTimeMs : Nat
  pipelineStages : List PipelineStageResult
  deriving DecidableEq, Repr

/-- ProcessedAudioResult of shared.ts. -/
structure ProcessedAudioResult where
  audioBase64 : String
  metadata : AudioProcessingMetadata
  deriving DecidableEq, Repr

/-- The resolved value of env.AI.run with the whisper model: an object
whose text field may be absent (undefined). -/
structure WhisperResponse where
  text : Option String
  deriving DecidableEq, Repr

/-- The message object of one llama choice; content may be absent. -/
structure LlamaMessage where
  content : Option String
  deriving DecidableEq, Repr

/-- One choice of a llama response. -/
structure LlamaChoice where
  message : LlamaMessage
  deriving DecidableEq, Repr

/-- The resolved value of env.AI.run with the llama model; a missing
choices field is modelled as the empty list (both make indexing at 0
yield undefined). -/
structure LlamaResponse where
  choices : List LlamaChoice
  deriving DecidableEq, Repr

/-- One generation of a Hume TTS response; audio may be absent. -/
structure HumeGeneration where
  audio : Option String
  deriving DecidableEq, Repr

/-- The resolved value of the fetch to the Hume TTS endpoint: ok/status
status line, the body text (read when not ok) and the parsed generations
array of the JSON body (a missing field is modelled as the empty list;
both are rejected by the same truthiness test in the source). -/
structure HumeResponse where
  ok : Bool
  status : Nat
  bodyText : String
  generations : List HumeGeneration
  deriving DecidableEq, Repr

deriving instance DecidableEq for Except

/-- The behaviour of the three injected external dependencies during one
run: each promise either resolves with a response value or rejects with
an error carrying the given message. -/
structure PipelineDeps where
  whisper : Except String WhisperResponse
  llama : Except String LlamaResponse
  hume : Except String HumeResponse
  deriving DecidableEq, Repr

/-- Which external adapter calls were issued during one run (observable
instrumentation; the source issues these calls as side effects). -/
structure AdapterCalls where
  whisperCalled : Bool
  llamaCalled : Bool
  humeCalled : Bool
  deriving DecidableEq, Repr

/-- The observable outcome of one processVoicePipeline run: the returned
value or thrown PipelineError, the final value of the local
pipelineStages array, and which external calls were made. -/
structure PipelineRun where
  result : Except PipelineError ProcessedAudioResult
  trace : List PipelineStageResult
  calls : AdapterCalls
  deriving DecidableEq, Repr

/-! ### controller.ts: stage adapter bodies -/

/-- The llama stage body inside its try block:
llmOutput = llamaResponse.choices[0].message.content.  A rejected promise
propagates its message; indexing an empty choices array yields undefined,
so reading .message on it throws a TypeError (modelled with a fixed
message text); a present choice with absent content yields undefined
without throwing. -/
def llamaContent : Except String LlamaResponse → Except String (Option String)
  | .error msg => .error msg
  | .ok lr =>
    match lr.choices with
    | [] => .error "Cannot read properties of undefined"
    | c :: _ => .ok c.message.content

/-- The truthiness test guarding audioBase64 in the source:
ttsData.generations && ttsData.generations.length > 0 &&
ttsData.generations[0]?.audio.  Yields the audio payload when the
generations array is non-empty and its first element carries a truthy
(present and non-empty) audio field. -/
def humeAudio (hr : HumeResponse) : Option String :=
  match hr.generations with
  | [] => none
  | g :: _ =>
    match g.audio with
    | none => none
    | some a => if a = "" then none else some a

/-- The hume stage body inside its try block: a rejected fetch propagates
its message; a non-ok response throws the Hume API error message built
from status and body text; otherwise the parsed body must pass the
humeAudio truthiness test or the no-audio error is thrown. -/
def humeCall : Except String HumeResponse → Except String String
  | .error msg => .error msg
  | .ok hr =>
    if !hr.ok then
      .error ("Hume API error: " ++ toString hr.status ++ " - " ++ hr.bodyText)
    else
      match humeAudio hr with
      | some a => .ok a
      | none => .error "No audio generated by TTS service"

/-- The call validatePipelineStages(transcript, llmOutput) as issued by
the controller, where either argument may be undefined: an undefined
argument is falsy, so the source returns false without reaching the trim
test. -/
def validatePipelineStagesOpt : Option String → Option String → Bool
  | some t, some o => validatePipelineStages t o
  | _, _ => false

/-! ### controller.ts: processVoicePipeline -/

/-- processVoicePipeline of controller.ts.  clock gives the successive
Date.now() readings (argument k is the k-th read during the run, in
source order).  The outer catch of the source, which wraps a
non-PipelineError escaping the try body into a PipelineError tagged
response-assembly, is unreachable in this embedding because every
internal throw already is a PipelineError and the model/metadata helpers
are total. -/
def processVoicePipeline (audioFile : AudioFile) (deps : PipelineDeps)
    (clock : Nat → Nat) : PipelineRun :=
  let startTime := clock 0
  -- Stage 1: Validation
  let validationStart := clock 1
  let validation := validateAudioFile audioFile
  let validationEnd := clock 2
  let stages1 : List PipelineStageResult :=
    [{ stage := .validation, success := validation.valid
       durationMs := validationEnd - validationStart, error := validation.error }]
  if validation.valid = false then
    { result := .error { message := jsStrOr validation.error "Validation failed"
                         stage := .validation }
      trace := stages1
      calls := { whisperCalled := false, llamaCalled := false, humeCalled := false } }
  else
    -- Stage 2: Whisper Transcription
    let whisperStart := clock 3
    match deps.whisper with
    | .error msg =>
      let whisperEnd := clock 4
      { result := .error { message := "Whisper transcription failed"
                           stage := .whisper, details := some msg }
        trace := stages1 ++ [{ stage := .whisper, success := false
                               durationMs := whisperEnd - whisperStart, error := some msg }]
        calls := { whisperCalled := true, llamaCalled := false, humeCalled := false } }
    | .ok wr =>
      let transcript : Option String := wr.text
      let whisperEnd := clock 4
      let stages2 := stages1 ++ [{ stage := .whisper, success := true
                                   durationMs := whisperEnd - whisperStart }]
      -- Stage 3: Llama Processing
      let llamaStart := clock 5
      match llamaContent deps.llama with
      | .error msg =>
        let llamaEnd := clock 6
        { result := .error { message := "LLM processing failed"
                             stage := .llama, details := some msg }
          trace := stages2 ++ [{ stage := .llama, success := false
                                 durationMs := llamaEnd - llamaStart, error := some msg }]
          calls := { whisperCalled := true, llamaCalled := true, humeCalled := false } }
      | .ok llmOutput =>
        let llamaEnd := clock 6
        let stages3 := stages2 ++ [{ stage := .llama, success := true
                                     durationMs := llamaEnd - llamaStart }]
        -- Output check: validatePipelineStages(transcript, llmOutput)
        if validatePipelineStagesOpt transcript llmOutput = false then
          { result := .error { message := "Pipeline validation failed"
                               stage := .responseAssembly }
            trace := stages3 ++ [{ stage := .responseAssembly, success := false
                                   durationMs := 0, error := some "Invalid pipeline output" }]
            calls := { whisperCalled := true, llamaCalled := true, humeCalled := false } }
        else
          -- Stage 4: Hume TTS
          let humeStart := clock 7
          match humeCall deps.hume with
          | .error msg =>
            let humeEnd := clock 8
            { result := .error { message := "Text-to-speech synthesis failed"
                                 stage := .hume, details := some msg }
              trace := stages3 ++ [{ stage := .hume, success := false
                                     durationMs := humeEnd - humeStart, error := some msg }]
              calls := { whisperCalled := true, llamaCalled := true, humeCalled := true } }
          | .ok audioBase64 =>
            let humeEnd := clock 8
            let stages4 := stages3 ++ [{ stage := .hume, success := true
                                         durationMs := humeEnd - humeStart }]
            -- Stage 5: Response Assembly
            let assemblyStart := clock 9
            let metadata := extractAudioMetadata audioFile
            let assemblyEnd := clock 10
            let stages5 := stages4 ++ [{ stage := .responseAssembly, success := true
                                         durationMs := assemblyEnd - assemblyStart }]
            let endTime := clock 11
            { result := .ok
                { audioBase64 := audioBase64
                  metadata :=
                    { originalDuration :=
                        if metadata.size > 0 then some ((metadata.size + 16000 - 1) / 16000)
                        else none
                      -- transcript.length: the output check passed, so
                      -- transcript is a present, non-empty string here
                      transcriptLength := (transcript.getD "").length
                      processingTimeMs := endTime - startTime
                      pipelineStages := stages5 } }
              trace := stages5
              calls := { whisperCalled := true, llamaCalled := true, humeCalled := true } }

/-! ### controller.ts: handlePipelineError -/

/-- The caught error value handed to handlePipelineError: either a
PipelineError instance or a plain Error with message and optional stack. -/
inductive CaughtError where
  | pipeline (e : PipelineError)
  | js (message : String) (stack : Option String)
  deriving DecidableEq, Repr

/-- ErrorResponse of shared.ts as produced by handlePipelineError.  The
source stores new Date().toISOString(), an injective millisecond-precision
rendering of the wall clock; the embedding records the millisecond clock
reading itself, which preserves exactly the equalities and differences of
the rendered timestamps. -/
structure ErrorResponse where
  error : String
  stage : PipelineStage
  details : Option String
  timestampMs : Nat
  requestId : String
  deriving DecidableEq, Repr

/-- generateRequestId of controller.ts:
req_ ++ Date.now() ++ _ ++ Math.random().toString(36).substr(2, 9).
The clock reading and the random draw are the injected now and rand. -/
def generateRequestId (now : Nat) (rand : String) : String :=
  "req_" ++ toString now ++ "_" ++ rand

/-- handlePipelineError of controller.ts.  now is the wall-clock reading
of this call and rand the random draw of its generateRequestId call.  For
a PipelineError the record copies its message, stage and details; for a
generic error the message falls back to a default when falsy and the
details are the first line of the stack when the stack is truthy. -/
def handlePipelineError (error : CaughtError) (stage : PipelineStage)
    (now : Nat) (rand : String) : ErrorResponse :=
  let timestamp := now
  let requestId := generateRequestId now rand
  match error with
  | .pipeline e =>
    { error := e.message, stage := e.stage, details := e.details
      timestampMs := timestamp, requestId := requestId }
  | .js message stack =>
    let errorMessage := if message = "" then "Unknown error occurred" else message
    let errorDetails :=
      match stack with
      | none => none
      | some s => if s = "" then none else some ((jsSplit '\n' s).headD "")
    { error := errorMessage, stage := stage, details := errorDetails
      timestampMs := timestamp, requestId := requestId }

/-- The fixed stage order named by the specification: validation=0,
transcription(whisper)=1, response-generation(llama)=2,
synthesis(hume)=3, assembly(response-assembly)=4. -/
def stageIndex : PipelineStage → Nat
  | .validation => 0
  | .whisper => 1
  | .llama => 2
  | .hume => 3
  | .responseAssembly => 4

/-! ### Helper lemmas -/

theorem string_length_eq_zero {s : String} : s.length = 0 ↔ s = "" := by
  cases s with
  | mk data => simp [String.length, String.ext_iff]

theorem jsTrim_empty : jsTrim "" = "" := rfl

/-- The output check of model.ts fails exactly when one of its two
arguments trims to the empty string. -/
theorem validatePipelineStages_eq_false_iff (t o : String) :
    validatePipelineStages t o = false ↔ jsTrim t = "" ∨ jsTrim o = "" := by
  have ht : t = "" → jsTrim t = "" := by rintro rfl; rfl
  have ho : o = "" → jsTrim o = "" := by rintro rfl; rfl
  unfold validatePipelineStages
  constructor
  · intro h
    split at h
    · rename_i h1
      simp only [Bool.or_eq_true, decide_eq_true_eq, string_length_eq_zero] at h1
      rcases h1 with h1 | h1
      · exact Or.inl (ht h1)
      · exact Or.inl h1
    · split at h
      · rename_i h2
        simp only [Bool.or_eq_true, decide_eq_true_eq, string_length_eq_zero] at h2
        rcases h2 with h2 | h2
        · exact Or.inr (ho h2)
        · exact Or.inr h2
      · exact absurd h (by simp)
  · intro h
    split
    · rfl
    · split
      · rfl
      · rename_i h1 h2
        simp only [Bool.or_eq_true, decide_eq_true_eq, string_length_eq_zero, not_or] at h1 h2
        rcases h with h | h
        · exact absurd h h1.2
        · exact absurd h h2.2

/-- Prepending the same string on the left is injective. -/
theorem string_append_left_cancel {s a b : String} (h : s ++ a = s ++ b) : a = b := by
  have hd := congrArg String.data h
  simp only [String.data_append] at hd
  exact String.ext (List.append_cancel_left hd)

/-! ### Branch characterizations of processVoicePipeline -/

/-- A failed input validation terminates the run at once. -/
theorem run_validation_fail (file : AudioFile) (deps : PipelineDeps) (clock : Nat → Nat)
    (hv : (validateAudioFile file).valid = false) :
    processVoicePipeline file deps clock =
      { result := .error { message := jsStrOr (validateAudioFile file).error "Validation failed"
                           stage := .validation }
        trace := [{ stage := .validation, success := false
                    durationMs := clock 2 - clock 1
                    error := (validateAudioFile file).error }]
        calls := { whisperCalled := false, llamaCalled := false, humeCalled := false } } := by
  simp [processVoicePipeline, hv]

/-- A rejected whisper call fails the run at the whisper stage. -/
theorem run_whisper_error (file : AudioFile) (deps : PipelineDeps) (clock : Nat → Nat)
    (msg : String)
    (hv : (validateAudioFile file).valid = true)
    (hw : deps.whisper = .error msg) :
    processVoicePipeline file deps clock =
      { result := .error { message := "Whisper transcription failed"
                           stage := .whisper, details := some msg }
        trace := [{ stage := .validation, success := true
                    durationMs := clock 2 - clock 1, error := (validateAudioFile file).error },
                  { stage := .whisper, success := false
                    durationMs := clock 4 - clock 3, error := some msg }]
        calls := { whisperCalled := true, llamaCalled := false, humeCalled := false } } := by
  simp [processVoicePipeline, hv, hw]

/-- A failed llama stage (rejected call or empty choices array) fails the
run at the llama stage. -/
theorem run_llama_error (file : AudioFile) (deps : PipelineDeps) (clock : Nat → Nat)
    (wr : WhisperResponse) (msg : String)
    (hv : (validateAudioFile file).valid = true)
    (hw : deps.whisper = .ok wr)
    (hl : llamaContent deps.llama = .error msg) :
    processVoicePipeline file deps clock =
      { result := .error { message := "LLM processing failed"
                           stage := .llama, details := some msg }
        trace := [{ stage := .validation, success := true
                    durationMs := clock 2 - clock 1, error := (validateAudioFile file).error },
                  { stage := .whisper, success := true, durationMs := clock 4 - clock 3 },
                  { stage := .llama, success := false
                    durationMs := clock 6 - clock 5, error := some msg }]
        calls := { whisperCalled := true, llamaCalled := true, humeCalled := false } } := by
  simp [processVoicePipeline, hv, hw, hl]

/-- A failed output check fails the run with the response-assembly tag,
before the hume call is issued, with a zero-duration failed outcome. -/
theorem run_output_check_fail (file : AudioFile) (deps : PipelineDeps) (clock : Nat → Nat)
    (wr : WhisperResponse) (lo : Option String)
    (hv : (validateAudioFile file).valid = true)
    (hw : deps.whisper = .ok wr)
    (hl : llamaContent deps.llama = .ok lo)
    (hc : validatePipelineStagesOpt wr.text lo = false) :
    processVoicePipeline file deps clock =
      { result := .error { message := "Pipeline validation failed"
                           stage := .responseAssembly }
        trace := [{ stage := .validation, success := true
                    durationMs := clock 2 - clock 1, error := (validateAudioFile file).error },
                  { stage := .whisper, success := true, durationMs := clock 4 - clock 3 },
                  { stage := .llama, success := true, durationMs := clock 6 - clock 5 },
                  { stage := .responseAssembly, success := false
                    durationMs := 0, error := some "Invalid pipeline output" }]
        calls := { whisperCalled := true, llamaCalled := true, humeCalled := false } } := by
  simp [processVoicePipeline, hv, hw, hl, hc]

/-- A failed hume stage (rejected fetch, non-ok status, or no usable
audio in the body) fails the run at the hume stage. -/
theorem run_hume_error (file : AudioFile) (deps : PipelineDeps) (clock : Nat → Nat)
    (wr : WhisperResponse) (lo : Option String) (msg : String)
    (hv : (validateAudioFile file).valid = true)
    (hw : deps.whisper = .ok wr)
    (hl : llamaContent deps.llama = .ok lo)
    (hc : validatePipelineStagesOpt wr.text lo = true)
    (hh : humeCall deps.hume = .error msg) :
    processVoicePipeline file deps clock =
      { result := .error { message := "Text-to-speech synthesis failed"
                           stage := .hume, details := some msg }
        trace := [{ stage := .validation, success := true
                    durationMs := clock 2 - clock 1, error := (validateAudioFile file).error },
                  { stage := .whisper, success := true, durationMs := clock 4 - clock 3 },
                  { stage := .llama, success := true, durationMs := clock 6 - clock 5 },
                  { stage := .hume, success := false
                    durationMs := clock 8 - clock 7, error := some msg }]
        calls := { whisperCalled := true, llamaCalled := true, humeCalled := true } } := by
  simp [processVoicePipeline, hv, hw, hl, hc, hh]

/-- A run on which every stage succeeds returns the assembled result. -/
theorem run_success (file : AudioFile) (deps : PipelineDeps) (clock : Nat → Nat)
    (wr : WhisperResponse) (lo : Option String) (audio : String)
    (hv : (validateAudioFile file).valid = true)
    (hw : deps.whisper = .ok wr)
    (hl : llamaContent deps.llama = .ok lo)
    (hc : validatePipelineStagesOpt wr.text lo = true)
    (hh : humeCall deps.hume = .ok audio) :
    processVoicePipeline file deps clock =
      { result := .ok
          { audioBase64 := audio
            metadata :=
              { originalDuration :=
                  if (extractAudioMetadata file).size > 0 then
                    some (((extractAudioMetadata file).size + 16000 - 1) / 16000)
                  else none
                transcriptLength := (wr.text.getD "").length
                processingTimeMs := clock 11 - clock 0
                pipelineStages :=
                  [{ stage := .validation, success := true
                     durationMs := clock 2 - clock 1, error := (validateAudioFile file).error },
                   { stage := .whisper, success := true, durationMs := clock 4 - clock 3 },
                   { stage := .llama, success := true, durationMs := clock 6 - clock 5 },
                   { stage := .hume, success := true, durationMs := clock 8 - clock 7 },
                   { stage := .responseAssembly, success := true
                     durationMs := clock 10 - clock 9 }] } }
        trace := [{ stage := .validation, success := true
                    durationMs := clock 2 - clock 1, error := (validateAudioFile file).error },
                  { stage := .whisper, success := true, durationMs := clock 4 - clock 3 },
                  { stage := .llama, success := true, durationMs := clock 6 - clock 5 },
                  { stage := .hume, success := true, durationMs := clock 8 - clock 7 },
                  { stage := .responseAssembly, success := true
                    durationMs := clock 10 - clock 9 }]
        calls := { whisperCalled := true, llamaCalled := true, humeCalled := true } } := by
  simp [processVoicePipeline, hv, hw, hl, hc, hh]



/-! ### Concrete run fixtures (used by witnesses and counterexamples) -/

/-- A 1 KiB wav artifact (scenario A of the specification). -/
def testFile : AudioFile :=
  { size := 1024, type := "audio/wav", name := "test.wav", lastModified := 0 }

/-- Dependency behaviour of a fully successful run. -/
def okDeps : PipelineDeps :=
  { whisper := .ok { text := some "hello world" }
    llama := .ok { choices := [{ message := { content := some "Hi there!" } }] }
    hume := .ok { ok := true, status := 200, bodyText := ""
                  generations := [{ audio := some "b64" }] } }

/-- A constant clock: every Date.now() read returns 0. -/
def zclock : Nat → Nat := fun _ => 0

/-- Dependencies whose whisper call rejects. -/
def whisperFailDeps : PipelineDeps := { okDeps with whisper := .error "boom" }

/-- Dependencies whose whisper call resolves with an empty transcript
(scenario D of the specification). -/
def emptyTranscriptDeps : PipelineDeps :=
  { okDeps with
    whisper := .ok { text := some "" }
    llama := .ok { choices := [{ message := { content := some "Some response" } }] } }

/-- Dependencies whose whisper call resolves with an object carrying no
text field at all. -/
def noTextDeps : PipelineDeps :=
  { okDeps with
    whisper := .ok { text := none }
    llama := .ok { choices := [{ message := { content := some "Some response" } }] } }

/-- Dependencies whose whisper call resolves with no text field and whose
llama response carries no completion content. -/
def noTextNoContentDeps : PipelineDeps :=
  { okDeps with
    whisper := .ok { text := none }
    llama := .ok { choices := [{ message := { content := none } }] } }

/-- Dependencies whose whisper call resolves with a whitespace-only
transcript. -/
def wsTranscriptDeps : PipelineDeps :=
  { okDeps with whisper := .ok { text := some "   " } }

/-- Dependencies whose Hume TTS call returns a non-success HTTP status. -/
def humeStatusFailDeps : PipelineDeps :=
  { okDeps with
    hume := .ok { ok := false, status := 500
                  bodyText := "Hume TTS service error", generations := [] } }

/-! ### Claim theorems -/

/-- C1 (counterexample): on a run in which the output check fails
(whisper resolves with an empty transcript, llama with a non-empty
response), the failing stage carries the assembly tag, whose fixed index
is 4, yet only 4 stage outcomes are recorded: the claimed length
(index of first failing stage + 1 = 5) does not hold. -/
theorem C1_counterexample :
    (processVoicePipeline testFile emptyTranscriptDeps zclock).result =
      .error { message := "Pipeline validation failed"
               stage := .responseAssembly, details := none }
    ∧ (processVoicePipeline testFile emptyTranscriptDeps zclock).trace.length = 4
    ∧ stageIndex .responseAssembly + 1 ≠ 4 := by
  decide

/-- C1 (amended): the recorded StageOutcome sequence has length 5 on full
success, and on failure has length equal to the fixed index of the
failing stage plus one, except that an output-check failure — tagged with
the assembly stage, index 4 — records only 4 outcomes, because the
synthesis stage is skipped and contributes no outcome. -/
theorem C1_stage_log_length (file : AudioFile) (deps : PipelineDeps) (clock : Nat → Nat) :
    (∀ r, (processVoicePipeline file deps clock).result = .ok r →
      (processVoicePipeline file deps clock).trace.length = 5)
    ∧ ∀ e, (processVoicePipeline file deps clock).result = .error e →
      (processVoicePipeline file deps clock).trace.length =
        if e.stage = .responseAssembly then 4 else stageIndex e.stage + 1 := by
  by_cases hv : (validateAudioFile file).valid = false
  · rw [run_validation_fail file deps clock hv]
    refine ⟨fun r hr => by simp at hr, fun e he => ?_⟩
    simp at he; subst he; simp [stageIndex]
  · have hv' : (validateAudioFile file).valid = true := by
      revert hv; cases (validateAudioFile file).valid <;> simp
    cases hw : deps.whisper with
    | error msg =>
      rw [run_whisper_error file deps clock msg hv' hw]
      refine ⟨fun r hr => by simp at hr, fun e he => ?_⟩
      simp at he; subst he; simp [stageIndex]
    | ok wr =>
      cases hl : llamaContent deps.llama with
      | error msg =>
        rw [run_llama_error file deps clock wr msg hv' hw hl]
        refine ⟨fun r hr => by simp at hr, fun e he => ?_⟩
        simp at he; subst he; simp [stageIndex]
      | ok lo =>
        by_cases hc : validatePipelineStagesOpt wr.text lo = false
        · rw [run_output_check_fail file deps clock wr lo hv' hw hl hc]
          refine ⟨fun r hr => by simp at hr, fun e he => ?_⟩
          simp at he; subst he; simp [stageIndex]
        · have hc' : validatePipelineStagesOpt wr.text lo = true := by
            revert hc; cases validatePipelineStagesOpt wr.text lo <;> simp
          cases hh : humeCall deps.hume with
          | error msg =>
            rw [run_hume_error file deps clock wr lo msg hv' hw hl hc' hh]
            refine ⟨fun r hr => by simp at hr, fun e he => ?_⟩
            simp at he; subst he; simp [stageIndex]
          | ok audio =>
            rw [run_success file deps clock wr lo audio hv' hw hl hc' hh]
            exact ⟨fun r hr => by simp, fun e he => by simp at he⟩

/-- C1 (witness): on the concrete whisper-rejection run the amended
length formula evaluates to 2. -/
theorem C1_witness :
    (processVoicePipeline testFile whisperFailDeps zclock).trace.length =
      if (PipelineStage.whisper = PipelineStage.responseAssembly) then 4
      else stageIndex .whisper + 1 :=
  (C1_stage_log_length testFile whisperFailDeps zclock).2
    { message := "Whisper transcription failed", stage := .whisper, details := some "boom" }
    (by decide)

/-- C4: for every artifact and every behaviour of the injected
dependencies, a run either returns a complete ProcessedAudioResult or
fails with a single PipelineError whose stage tag and message are among
the five controller-built failures; a transport-level rejection never
escapes unwrapped (its message can appear only in the details field). -/
theorem C4_failures_are_stage_tagged (file : AudioFile) (deps : PipelineDeps)
    (clock : Nat → Nat) (e : PipelineError)
    (h : (processVoicePipeline file deps clock).result = .error e) :
    (e.stage = .validation
       ∧ e.message = jsStrOr (validateAudioFile file).error "Validation failed")
    ∨ (e.stage = .whisper ∧ e.message = "Whisper transcription failed")
    ∨ (e.stage = .llama ∧ e.message = "LLM processing failed")
    ∨ (e.stage = .responseAssembly ∧ e.message = "Pipeline validation failed")
    ∨ (e.stage = .hume ∧ e.message = "Text-to-speech synthesis failed") := by
  by_cases hv : (validateAudioFile file).valid = false
  · rw [run_validation_fail file deps clock hv] at h
    simp at h; subst h; simp
  · have hv' : (validateAudioFile file).valid = true := by
      revert hv; cases (validateAudioFile file).valid <;> simp
    cases hw : deps.whisper with
    | error msg =>
      rw [run_whisper_error file deps clock msg hv' hw] at h
      simp at h; subst h; simp
    | ok wr =>
      cases hl : llamaContent deps.llama with
      | error msg =>
        rw [run_llama_error file deps clock wr msg hv' hw hl] at h
        simp at h; subst h; simp
      | ok lo =>
        by_cases hc : validatePipelineStagesOpt wr.text lo = false
        · rw [run_output_check_fail file deps clock wr lo hv' hw hl hc] at h
          simp at h; subst h; simp
        · have hc' : validatePipelineStagesOpt wr.text lo = true := by
            revert hc; cases validatePipelineStagesOpt wr.text lo <;> simp
          cases hh : humeCall deps.hume with
          | error msg =>
            rw [run_hume_error file deps clock wr lo msg hv' hw hl hc' hh] at h
            simp at h; subst h; simp
          | ok audio =>
            rw [run_success file deps clock wr lo audio hv' hw hl hc' hh] at h
            simp at h

/-- C4 (witness): the concrete whisper-rejection run produces a
whisper-tagged failure satisfying the disjunction. -/
theorem C4_witness :
    (PipelineStage.whisper = PipelineStage.validation
       ∧ "Whisper transcription failed"
           = jsStrOr (validateAudioFile testFile).error "Validation failed")
    ∨ (PipelineStage.whisper = PipelineStage.whisper
       ∧ "Whisper transcription failed" = "Whisper transcription failed")
    ∨ (PipelineStage.whisper = PipelineStage.llama
       ∧ "Whisper transcription failed" = "LLM processing failed")
    ∨ (PipelineStage.whisper = PipelineStage.responseAssembly
       ∧ "Whisper transcription failed" = "Pipeline validation failed")
    ∨ (PipelineStage.whisper = PipelineStage.hume
       ∧ "Whisper transcription failed" = "Text-to-speech synthesis failed") :=
  C4_failures_are_stage_tagged testFile whisperFailDeps zclock
    { message := "Whisper transcription failed", stage := .whisper, details := some "boom" }
    (by decide)


/-- C2 (counterexample): when the whisper call resolves with an object
carrying no usable text field (and the generation stage succeeds), the
run does not fail at the whisper stage: the whisper outcome is recorded
as a success and the failure is tagged response-assembly. -/
theorem C2_counterexample :
    (processVoicePipeline testFile noTextDeps zclock).result =
      .error { message := "Pipeline validation failed"
               stage := .responseAssembly, details := none }
    ∧ (processVoicePipeline testFile noTextDeps zclock).trace.map
        (fun s => (s.stage, s.success)) =
        [(.validation, true), (.whisper, true), (.llama, true), (.responseAssembly, false)] := by
  decide

/-- C2 (amended): the transcription adapter performs no check on the
provider response: a response with no usable text field leaves the
whisper stage recorded as a success, and the missing transcript is only
caught by the later output check, which fails the run with a
PipelineFailure tagged response-assembly (message Pipeline validation
failed), provided the generation stage itself succeeded. -/
theorem C2_missing_text_fails_at_output_check (file : AudioFile) (deps : PipelineDeps)
    (clock : Nat → Nat) (lo : Option String)
    (hv : (validateAudioFile file).valid = true)
    (hw : deps.whisper = .ok { text := none })
    (hl : llamaContent deps.llama = .ok lo) :
    (processVoicePipeline file deps clock).result =
      .error { message := "Pipeline validation failed"
               stage := .responseAssembly, details := none }
    ∧ (processVoicePipeline file deps clock).trace.map
        (fun s => (s.stage, s.success)) =
        [(.validation, true), (.whisper, true), (.llama, true), (.responseAssembly, false)] := by
  have hc : validatePipelineStagesOpt (WhisperResponse.mk none).text lo = false := by
    cases lo <;> rfl
  rw [run_output_check_fail file deps clock _ lo hv hw hl hc]
  exact ⟨rfl, rfl⟩

/-- C2 (witness): the amended behaviour on the concrete run whose whisper
response has no text field and whose llama response has no content. -/
theorem C2_witness :
    (processVoicePipeline testFile noTextNoContentDeps zclock).result =
      .error { message := "Pipeline validation failed"
               stage := .responseAssembly, details := none }
    ∧ (processVoicePipeline testFile noTextNoContentDeps zclock).trace.map
        (fun s => (s.stage, s.success)) =
        [(.validation, true), (.whisper, true), (.llama, true), (.responseAssembly, false)] :=
  C2_missing_text_fails_at_output_check testFile noTextNoContentDeps zclock none
    (by decide) rfl rfl

/-- C3 (counterexample): the output-check failure carries the message
Pipeline validation failed, not the claimed message output validation
failed. -/
theorem C3_counterexample :
    (processVoicePipeline testFile wsTranscriptDeps zclock).result =
      .error { message := "Pipeline validation failed"
               stage := .responseAssembly, details := none }
    ∧ "Pipeline validation failed" ≠ "output validation failed" := by
  decide

/-- C3 (amended): whenever the transcript or the generated response is
empty or whitespace-only after trimming, the output check fails the run
before the synthesis call is issued, with a PipelineFailure tagged
response-assembly whose message is Pipeline validation failed (not
output validation failed), appending one failed StageOutcome with
duration 0. -/
theorem C3_output_check_failure (file : AudioFile) (deps : PipelineDeps)
    (clock : Nat → Nat) (t o : String)
    (hv : (validateAudioFile file).valid = true)
    (hw : deps.whisper = .ok { text := some t })
    (hl : llamaContent deps.llama = .ok (some o))
    (he : jsTrim t = "" ∨ jsTrim o = "") :
    (processVoicePipeline file deps clock).result =
      .error { message := "Pipeline validation failed"
               stage := .responseAssembly, details := none }
    ∧ (processVoicePipeline file deps clock).calls.humeCalled = false
    ∧ (processVoicePipeline file deps clock).trace.getLast? =
        some { stage := .responseAssembly, success := false, durationMs := 0
               error := some "Invalid pipeline output" }
    ∧ (processVoicePipeline file deps clock).trace.length = 4 := by
  have hc : validatePipelineStagesOpt (WhisperResponse.mk (some t)).text (some o) = false := by
    simp only [validatePipelineStagesOpt]
    exact (validatePipelineStages_eq_false_iff t o).mpr he
  rw [run_output_check_fail file deps clock _ (some o) hv hw hl hc]
  exact ⟨rfl, rfl, rfl, rfl⟩

/-- C3 (witness): the amended behaviour on the concrete run whose
transcript is whitespace-only. -/
theorem C3_witness :
    (processVoicePipeline testFile wsTranscriptDeps zclock).result =
      .error { message := "Pipeline validation failed"
               stage := .responseAssembly, details := none }
    ∧ (processVoicePipeline testFile wsTranscriptDeps zclock).calls.humeCalled = false
    ∧ (processVoicePipeline testFile wsTranscriptDeps zclock).trace.getLast? =
        some { stage := .responseAssembly, success := false, durationMs := 0
               error := some "Invalid pipeline output" }
    ∧ (processVoicePipeline testFile wsTranscriptDeps zclock).trace.length = 4 :=
  C3_output_check_failure testFile wsTranscriptDeps zclock "   " "Hi there!"
    (by decide) rfl rfl (Or.inl (by decide))

/-- C5: if validation succeeds and the whisper call rejects, the run
fails with a PipelineFailure tagged whisper, the outcome log holds
exactly a validation success followed by a whisper failure, and neither
the llama nor the hume call is made. -/
theorem C5_whisper_rejection (file : AudioFile) (deps : PipelineDeps)
    (clock : Nat → Nat) (msg : String)
    (hv : (validateAudioFile file).valid = true)
    (hw : deps.whisper = .error msg) :
    (processVoicePipeline file deps clock).result =
      .error { message := "Whisper transcription failed"
               stage := .whisper, details := some msg }
    ∧ (processVoicePipeline file deps clock).trace.map
        (fun s => (s.stage, s.success)) = [(.validation, true), (.whisper, false)]
    ∧ (processVoicePipeline file deps clock).calls.llamaCalled = false
    ∧ (processVoicePipeline file deps clock).calls.humeCalled = false := by
  rw [run_whisper_error file deps clock msg hv hw]
  exact ⟨rfl, rfl, rfl, rfl⟩

/-- C5 (witness): scenario C on the concrete whisper-rejection run. -/
theorem C5_witness :
    (processVoicePipeline testFile whisperFailDeps zclock).result =
      .error { message := "Whisper transcription failed"
               stage := .whisper, details := some "boom" }
    ∧ (processVoicePipeline testFile whisperFailDeps zclock).trace.map
        (fun s => (s.stage, s.success)) = [(.validation, true), (.whisper, false)]
    ∧ (processVoicePipeline testFile whisperFailDeps zclock).calls.llamaCalled = false
    ∧ (processVoicePipeline testFile whisperFailDeps zclock).calls.humeCalled = false :=
  C5_whisper_rejection testFile whisperFailDeps zclock "boom" (by decide) rfl


/-- An artifact one byte over the 25 MiB limit, of a supported type. -/
def oversizedWavFile : AudioFile :=
  { size := 26214401, type := "audio/wav", name := "big.wav", lastModified := 0 }

/-- An oversized artifact whose declared type and extension are both
unsupported. -/
def oversizedTextFile : AudioFile :=
  { size := 27 * 1024 * 1024, type := "text/plain", name := "big.txt", lastModified := 0 }

/-- C6: every artifact whose declared size exceeds the 25 MiB maximum
(26214400 bytes) is rejected by validateAudioFile with
maxSizeExceeded=true and the exact observed size reported in
details.fileSize.  validateAudioFile is a total pure function of the
declared metadata (its Lean embedding is total by construction), so it
never throws on any input. -/
theorem C6_validateAudioFile_oversize (file : AudioFile)
    (h : file.size > 26214400) :
    (validateAudioFile file).valid = false
    ∧ (validateAudioFile file).details =
        some { fileSize := file.size, fileType := file.type
               maxSizeExceeded := true, unsupportedFormat := false } := by
  have hm : file.size > MAX_FILE_SIZE := by
    show 25 * 1024 * 1024 < file.size
    omega
  simp [validateAudioFile, hm]

/-- C6 (witness): an artifact of 26214401 bytes is rejected for size. -/
theorem C6_witness :
    (validateAudioFile oversizedWavFile).valid = false
    ∧ (validateAudioFile oversizedWavFile).details =
        some { fileSize := oversizedWavFile.size, fileType := oversizedWavFile.type
               maxSizeExceeded := true, unsupportedFormat := false } :=
  C6_validateAudioFile_oversize oversizedWavFile (by decide)

/-- C10: for every oversized artifact the size check returns immediately,
so details.unsupportedFormat is false even when both the declared type
and the filename extension are unsupported — the format check is never
evaluated for an oversized artifact. -/
theorem C10_oversize_reports_format_supported (file : AudioFile)
    (h : file.size > 26214400) :
    ∃ d, (validateAudioFile file).details = some d ∧ d.unsupportedFormat = false := by
  have hm : file.size > MAX_FILE_SIZE := by
    show 25 * 1024 * 1024 < file.size
    omega
  exact ⟨{ fileSize := file.size, fileType := file.type
           maxSizeExceeded := true, unsupportedFormat := false },
         by simp [validateAudioFile, hm], rfl⟩

/-- C10 (witness): an oversized artifact with unsupported type text/plain
and unsupported extension txt still reports unsupportedFormat=false. -/
theorem C10_witness :
    ∃ d, (validateAudioFile oversizedTextFile).details = some d
      ∧ d.unsupportedFormat = false :=
  C10_oversize_reports_format_supported oversizedTextFile (by decide)

/-- C7: if the run reaches the synthesis stage and the Hume HTTP call
returns a non-success status, the run fails with a PipelineFailure tagged
hume whose detail is the provider error string built from the status code
and the response body text (so it contains both); and if the call
succeeds but the body carries zero generations or a first generation with
a missing audio field, the stage likewise rejects with a hume-tagged
PipelineFailure. -/
theorem C7_hume_failure_details (file : AudioFile) (deps : PipelineDeps)
    (clock : Nat → Nat) (wr : WhisperResponse) (lo : Option String) (hr : HumeResponse)
    (hv : (validateAudioFile file).valid = true)
    (hw : deps.whisper = .ok wr)
    (hl : llamaContent deps.llama = .ok lo)
    (hc : validatePipelineStagesOpt wr.text lo = true)
    (hh : deps.hume = .ok hr) :
    (hr.ok = false →
      (processVoicePipeline file deps clock).result =
        .error { message := "Text-to-speech synthesis failed", stage := .hume
                 details := some ("Hume API error: " ++ toString hr.status
                   ++ " - " ++ hr.bodyText) })
    ∧ (hr.ok = true →
       (hr.generations = [] ∨ ∃ g gs, hr.generations = g :: gs ∧ g.audio = none) →
      (processVoicePipeline file deps clock).result =
        .error { message := "Text-to-speech synthesis failed", stage := .hume
                 details := some "No audio generated by TTS service" }) := by
  constructor
  · intro hok
    have hcall : humeCall deps.hume =
        .error ("Hume API error: " ++ toString hr.status ++ " - " ++ hr.bodyText) := by
      simp [humeCall, hh, hok]
    rw [run_hume_error file deps clock wr lo _ hv hw hl hc hcall]
  · intro hok hgen
    have haudio : humeAudio hr = none := by
      rcases hgen with hnil | ⟨g, gs, hcons, hnone⟩
      · simp [humeAudio, hnil]
      · simp [humeAudio, hcons, hnone]
    have hcall : humeCall deps.hume = .error "No audio generated by TTS service" := by
      simp [humeCall, hh, hok, haudio]
    rw [run_hume_error file deps clock wr lo _ hv hw hl hc hcall]

/-- C7 (witness): scenario E on the concrete run whose Hume call returns
status 500 with body text Hume TTS service error. -/
theorem C7_witness :
    (processVoicePipeline testFile humeStatusFailDeps zclock).result =
      .error { message := "Text-to-speech synthesis failed", stage := .hume
               details := some ("Hume API error: " ++ toString (500 : Nat)
                 ++ " - " ++ "Hume TTS service error") } :=
  (C7_hume_failure_details testFile humeStatusFailDeps zclock
    { text := some "hello world" } (some "Hi there!")
    { ok := false, status := 500, bodyText := "Hume TTS service error", generations := [] }
    (by decide) rfl rfl (by decide) rfl).1 rfl

/-- C8: every successful run reports transcriptLength equal to the exact
length of the transcript text the whisper stage produced, and its
pipelineStages records all five stages, each marked success. -/
theorem C8_success_metadata (file : AudioFile) (deps : PipelineDeps)
    (clock : Nat → Nat) (r : ProcessedAudioResult)
    (h : (processVoicePipeline file deps clock).result = .ok r) :
    (∃ t, deps.whisper = .ok { text := some t }
        ∧ r.metadata.transcriptLength = t.length)
    ∧ r.metadata.pipelineStages.map (fun s => (s.stage, s.success)) =
        [(.validation, true), (.whisper, true), (.llama, true), (.hume, true),
         (.responseAssembly, true)] := by
  by_cases hv : (validateAudioFile file).valid = false
  · rw [run_validation_fail file deps clock hv] at h
    simp at h
  · have hv' : (validateAudioFile file).valid = true := by
      revert hv; cases (validateAudioFile file).valid <;> simp
    cases hw : deps.whisper with
    | error msg =>
      rw [run_whisper_error file deps clock msg hv' hw] at h
      simp at h
    | ok wr =>
      cases hl : llamaContent deps.llama with
      | error msg =>
        rw [run_llama_error file deps clock wr msg hv' hw hl] at h
        simp at h
      | ok lo =>
        by_cases hc : validatePipelineStagesOpt wr.text lo = false
        · rw [run_output_check_fail file deps clock wr lo hv' hw hl hc] at h
          simp at h
        · have hc' : validatePipelineStagesOpt wr.text lo = true := by
            revert hc; cases validatePipelineStagesOpt wr.text lo <;> simp
          cases hh : humeCall deps.hume with
          | error msg =>
            rw [run_hume_error file deps clock wr lo msg hv' hw hl hc' hh] at h
            simp at h
          | ok audio =>
            rw [run_success file deps clock wr lo audio hv' hw hl hc' hh] at h
            simp at h
            obtain ⟨txt⟩ := wr
            cases txt with
            | none =>
              cases lo <;> simp [validatePipelineStagesOpt] at hc'
            | some t =>
              subst h
              exact ⟨⟨t, rfl, rfl⟩, rfl⟩

/-- C8 (witness): scenario A: the successful concrete run reports
transcriptLength 11 for the transcript hello world and five successful
stage outcomes. -/
theorem C8_witness :
    (∃ t, okDeps.whisper = .ok { text := some t }
        ∧ (11 : Nat) = t.length)
    ∧ ([{ stage := .validation, success := true, durationMs := 0 },
        { stage := .whisper, success := true, durationMs := 0 },
        { stage := .llama, success := true, durationMs := 0 },
        { stage := .hume, success := true, durationMs := 0 },
        { stage := .responseAssembly, success := true, durationMs := 0 }]
          : List PipelineStageResult).map (fun s => (s.stage, s.success)) =
        [(.validation, true), (.whisper, true), (.llama, true), (.hume, true),
         (.responseAssembly, true)] :=
  C8_success_metadata testFile okDeps zclock
    { audioBase64 := "b64"
      metadata := { originalDuration := some 1, transcriptLength := 11
                    processingTimeMs := 0
                    pipelineStages :=
                      [{ stage := .validation, success := true, durationMs := 0 },
                       { stage := .whisper, success := true, durationMs := 0 },
                       { stage := .llama, success := true, durationMs := 0 },
                       { stage := .hume, success := true, durationMs := 0 },
                       { stage := .responseAssembly, success := true, durationMs := 0 }] } }
    (by decide)

/-- C9 (counterexample): the reporter derives its timestamp and requestId
purely from the wall-clock reading and one random draw; two calls made at
the same millisecond whose draws collide yield fully identical records,
so the requestIds and timestamps of two calls on the same error do not
differ unconditionally. -/
theorem C9_counterexample :
    handlePipelineError (.js "boom" none) .whisper 5 "abc"
      = handlePipelineError (.js "boom" none) .whisper 5 "abc"
    ∧ (handlePipelineError (.js "boom" none) .whisper 5 "abc").requestId = "req_5_abc"
    ∧ (handlePipelineError (.js "boom" none) .whisper 5 "abc").timestampMs = 5 := by
  decide

/-- C9 (amended): two reporter calls on the same error value and fallback
stage produce records whose error, stage and details fields are pairwise
identical; their timestamps differ exactly when the two wall-clock
readings differ, and at an unchanged clock reading their requestIds
differ exactly when the two random draws differ — the code has no other
source of freshness, so per-call uniqueness holds only as far as the
clock advances or the random draws differ. -/
theorem C9_reporter_determinism (e : CaughtError) (s : PipelineStage)
    (n1 n2 : Nat) (r1 r2 : String) :
    ((handlePipelineError e s n1 r1).error = (handlePipelineError e s n2 r2).error
     ∧ (handlePipelineError e s n1 r1).stage = (handlePipelineError e s n2 r2).stage
     ∧ (handlePipelineError e s n1 r1).details = (handlePipelineError e s n2 r2).details)
    ∧ ((handlePipelineError e s n1 r1).timestampMs
        = (handlePipelineError e s n2 r2).timestampMs ↔ n1 = n2)
    ∧ (n1 = n2 →
       ((handlePipelineError e s n1 r1).requestId
          = (handlePipelineError e s n2 r2).requestId ↔ r1 = r2)) := by
  refine ⟨?_, ?_, ?_⟩
  · cases e <;> simp [handlePipelineError]
  · cases e <;> simp [handlePipelineError]
  · intro hn
    subst hn
    have hreq : ∀ ra rb : String,
        generateRequestId n1 ra = generateRequestId n1 rb ↔ ra = rb := by
      intro ra rb
      constructor
      · exact fun hx => string_append_left_cancel hx
      · rintro rfl; rfl
    cases e <;> simpa [handlePipelineError] using hreq r1 r2

/-- C9 (witness): at an unchanged clock reading and distinct random
draws, the two records agree on the error field and differ in requestId. -/
theorem C9_witness :
    (handlePipelineError (.js "boom" none) .whisper 3 "aaa").error
      = (handlePipelineError (.js "boom" none) .whisper 3 "bbb").error
    ∧ ¬((handlePipelineError (.js "boom" none) .whisper 3 "aaa").requestId
        = (handlePipelineError (.js "boom" none) .whisper 3 "bbb").requestId) :=
  ⟨(C9_reporter_determinism (.js "boom" none) .whisper 3 3 "aaa" "bbb").1.1,
   fun h => absurd
     (((C9_reporter_determinism (.js "boom" none) .whisper 3 3 "aaa" "bbb").2.2 rfl).mp h)
     (by decide)⟩

end VoiceProcessor
